import Mathlib

/-!
Shallow embedding of the QueueMint self-healing DLQ pipeline.

Each definition mirrors one function of the TypeScript source:
* `normalizeDynamicValues`, `generateSemanticHash` — services/failure-analyzer/src/semantic-hash.ts
* `checkAndRecordMessage`, `processMessage` — services/dlq-monitor (deduplication.ts and the
  monitor handler's per-message loop)
* `FailureClassifier.classify`, `checkCache`, `cacheResult`, `getRecommendedAction`
  — services/failure-analyzer/src/classification.ts
* `calculateBackoffDelay`, `handleTransientFailure`, `generateS3Key`, `handlePoisonPill`,
  `handleSystemicFailure`, the executor dispatcher — services/action-executors
* `sha256Hex` — a byte-level SHA-256, modelling node's `crypto.createHash('sha256')`.

JavaScript numbers are modelled as `Nat` (epoch milliseconds, counters, delays) and
confidences as `ℚ`.  Fallible external calls (SQS, DynamoDB, S3, SNS, PagerDuty,
EventBridge, the LLM) are modelled by explicit success flags / oracle values, and each
handler returns the list of requests it issued, in order, as its effect trace.
-/

namespace QueueMint

/-! ### Character classes used by the regexes of `normalizeDynamicValues` -/

/-- ASCII decimal digit: the regex class `\d`. -/
def isDigitChar (c : Char) : Bool := '0' ≤ c && c ≤ '9'

/-- Hexadecimal digit: the class `[0-9a-f]` under the `i` flag. -/
def isHexChar (c : Char) : Bool :=
  isDigitChar c || ('a' ≤ c && c ≤ 'f') || ('A' ≤ c && c ≤ 'F')

/-- JavaScript word character `\w` (`[A-Za-z0-9_]`), as used by the `\b` boundary. -/
def isWordChar (c : Char) : Bool :=
  isDigitChar c || ('a' ≤ c && c ≤ 'z') || ('A' ≤ c && c ≤ 'Z') || c == '_'

/-- ASCII lower-casing of a string, the effect of JS `toLowerCase` on the ASCII
inputs this development works with. -/
def toLowerStr (s : String) : String := String.mk (s.data.map Char.toLower)

/-- ASCII upper-casing, JS `toUpperCase` on ASCII inputs. -/
def toUpperStr (s : String) : String := String.mk (s.data.map Char.toUpper)

/-- JS `trim`: drop whitespace from both ends (structural, so that proofs can
evaluate it). -/
def trimJS (s : String) : String :=
  String.mk (((s.data.dropWhile Char.isWhitespace).reverse.dropWhile Char.isWhitespace).reverse)

/-- JS `substring(0, n)` / `slice` style prefix (structural). -/
def takeStr (n : Nat) (s : String) : String := String.mk (s.data.take n)

/-- JS `array.join(sep)` (structural). -/
def joinSep (sep : String) : List String → String
  | [] => ""
  | [x] => x
  | x :: xs => x ++ sep ++ joinSep sep xs

/-! ### A generic scanner for `String.replace` with a global regex

JS `replace` with the `g` flag scans the original string left to right; at each
position it tries the pattern, and on a match emits the replacement and resumes
after the matched characters (replacements are never rescanned).  The matcher
receives the previous original character so it can evaluate `\b`. -/

/-- A matcher: given the previous original character (`none` at the start of the
string) and the remaining input, return the replacement characters and the number
of consumed characters (always ≥ 1 for the patterns in this file). -/
def Matcher : Type := Option Char → List Char → Option (List Char × Nat)

/-- One global-replace pass.  `fuel` bounds the recursion; it is always
instantiated with the length of the input, which suffices because every match
consumes at least one character. -/
def replaceScan (m : Matcher) : Nat → Option Char → List Char → List Char
  | 0, _, l => l
  | _ + 1, _, [] => []
  | fuel + 1, prev, c :: cs =>
    match m prev (c :: cs) with
    | some (rep, k) =>
        rep ++ replaceScan m fuel (((c :: cs).take k).getLast?) ((c :: cs).drop k)
    | none => c :: replaceScan m fuel (some c) cs

/-- JS `s.replace(pattern, …)` with a global regex, for the matcher `m`. -/
def globalReplace (m : Matcher) (l : List Char) : List Char :=
  replaceScan m l.length none l

/-- Consume exactly `n` characters all satisfying `p`, returning the rest. -/
def takeCount (p : Char → Bool) : Nat → List Char → Option (List Char)
  | 0, l => some l
  | n + 1, c :: cs => if p c then takeCount p n cs else none
  | _ + 1, [] => none

/-- Consume one character satisfying `p`. -/
def expectPred (p : Char → Bool) : List Char → Option (List Char)
  | c :: cs => if p c then some cs else none
  | [] => none

/-- Consume the literal character `c`. -/
def expectChar (c : Char) : List Char → Option (List Char) :=
  expectPred (fun x => x == c)

/-! ### The six replacement rules of `normalizeDynamicValues` -/

/-- Rule 1: `/[0-9a-f]{8}-[0-9a-f]{4}-[0-9a-f]{4}-[0-9a-f]{4}-[0-9a-f]{12}/gi → 'X'`. -/
def matchUuid : Matcher := fun _ l => do
  let r ← takeCount isHexChar 8 l
  let r ← expectChar '-' r
  let r ← takeCount isHexChar 4 r
  let r ← expectChar '-' r
  let r ← takeCount isHexChar 4 r
  let r ← expectChar '-' r
  let r ← takeCount isHexChar 4 r
  let r ← expectChar '-' r
  let _ ← takeCount isHexChar 12 r
  return (['X'], 36)

/-- The `\d{4}-\d{2}-\d{2}` date piece of rule 2. -/
def isoDate (l : List Char) : Option (List Char) :=
  (takeCount isDigitChar 4 l).bind fun r =>
  (expectChar '-' r).bind fun r =>
  (takeCount isDigitChar 2 r).bind fun r =>
  (expectChar '-' r).bind fun r =>
  takeCount isDigitChar 2 r

/-- The `[tT]\d{2}:\d{2}:\d{2}` time piece of rule 2. -/
def isoTime (l : List Char) : Option (List Char) :=
  (expectPred (fun c => c == 't' || c == 'T') l).bind fun r =>
  (takeCount isDigitChar 2 r).bind fun r =>
  (expectChar ':' r).bind fun r =>
  (takeCount isDigitChar 2 r).bind fun r =>
  (expectChar ':' r).bind fun r =>
  takeCount isDigitChar 2 r

/-- The optional `(\.\d{3})?[zZ]?` tail of rule 2, taken greedily. -/
def isoTail (l : List Char) : List Char :=
  let r := match (expectChar '.' l).bind (takeCount isDigitChar 3) with
    | some r' => r'
    | none => l
  match expectPred (fun c => c == 'z' || c == 'Z') r with
  | some r' => r'
  | none => r

/-- Rule 2: `/\d{4}-\d{2}-\d{2}[tT]\d{2}:\d{2}:\d{2}(\.\d{3})?[zZ]?/g → 'X'`.
The two optional pieces are taken greedily, exactly as the regex engine does. -/
def matchIsoTimestamp : Matcher := fun _ l =>
  match (isoDate l).bind isoTime with
  | none => none
  | some r => some (['X'], l.length - (isoTail r).length)

/-- Case-insensitive literal: consume `lit` (given lower-case), returning the
original characters consumed (for `$2`) and the rest. -/
def matchLitCI (lit : List Char) (l : List Char) : Option (List Char × List Char) :=
  match lit, l with
  | [], rest => some ([], rest)
  | _ :: _, [] => none
  | a :: as, c :: cs =>
    if c.toLower == a then
      (matchLitCI as cs).map (fun p => (c :: p.1, p.2))
    else none

/-- The unit alternation `(ms|kb|mb|gb|s|sec)` of rule 3, tried in source order
(`s` shadows `sec`, exactly as in the regex). -/
def matchUnitAlt (l : List Char) : Option (List Char × List Char) :=
  (matchLitCI ['m', 's'] l).orElse fun _ =>
  (matchLitCI ['k', 'b'] l).orElse fun _ =>
  (matchLitCI ['m', 'b'] l).orElse fun _ =>
  (matchLitCI ['g', 'b'] l).orElse fun _ =>
  (matchLitCI ['s'] l).orElse fun _ =>
  matchLitCI ['s', 'e', 'c'] l

/-- Rule 3: `/\d+(\.\d+)?(ms|kb|mb|gb|s|sec)/gi → 'X$2'`.  The integer and the
optional fraction are taken greedily; if no unit follows the greedy fraction the
engine retries without the fraction (the only backtracking these patterns need). -/
def matchNumUnit : Matcher := fun _ l =>
  let ints := l.takeWhile isDigitChar
  if ints.isEmpty then none
  else
    let r0 := l.drop ints.length
    let fracRest : Option (List Char) :=
      match r0 with
      | '.' :: r1 =>
        let ds := r1.takeWhile isDigitChar
        if ds.isEmpty then none else some (r1.drop ds.length)
      | _ => none
    let finish (r : List Char) : Option (List Char × Nat) :=
      (matchUnitAlt r).map fun p => ('X' :: p.1, l.length - p.2.length)
    match fracRest with
    | some r1 =>
      match finish r1 with
      | some res => some res
      | none => finish r0
    | none => finish r0

/-- Rule 4: `/\b\d{3,}\b/g → 'X'`: a maximal digit run of length ≥ 3 delimited by
word boundaries. -/
def matchBareInt : Matcher := fun prev l =>
  let boundaryBefore := match prev with
    | none => true
    | some c => !isWordChar c
  if boundaryBefore then
    let ds := l.takeWhile isDigitChar
    let boundaryAfter := match l.drop ds.length with
      | [] => true
      | c :: _ => !isWordChar c
    if 3 ≤ ds.length && boundaryAfter then some (['X'], ds.length) else none
  else none

/-- Rule 5: `/\b[0-9a-f]{8,}\b/gi → 'X'`: a maximal hex run of length ≥ 8
delimited by word boundaries. -/
def matchHexRun : Matcher := fun prev l =>
  let boundaryBefore := match prev with
    | none => true
    | some c => !isWordChar c
  if boundaryBefore then
    let hs := l.takeWhile isHexChar
    let boundaryAfter := match l.drop hs.length with
      | [] => true
      | c :: _ => !isWordChar c
    if 8 ≤ hs.length && boundaryAfter then some (['X'], hs.length) else none
  else none

/-- Rule 6: `/X+/g → 'X'` (case-sensitive): collapse runs of the placeholder. -/
def matchXRun : Matcher := fun _ l =>
  match l with
  | 'X' :: _ =>
    let xs := l.takeWhile (fun c => c == 'X')
    some (['X'], xs.length)
  | _ => none

/-- Source `normalizeDynamicValues` of semantic-hash.ts: the six global replacements in
source order, then `trim`. -/
def normalizeDynamicValues (s : String) : String :=
  let l := s.data
  let l := globalReplace matchUuid l
  let l := globalReplace matchIsoTimestamp l
  let l := globalReplace matchNumUnit l
  let l := globalReplace matchBareInt l
  let l := globalReplace matchHexRun l
  let l := globalReplace matchXRun l
  trimJS (String.mk l)


/-! ### SHA-256

`generateSemanticHash` hashes with node's `crypto.createHash('sha256')`; this is the
standard FIPS 180-4 SHA-256 over the UTF-8 bytes of the input, computed here with
`Nat` arithmetic modulo `2 ^ 32`. -/

/-- Modulus for 32-bit words. -/
def MOD32 : Nat := 2 ^ 32

/-- Mask of 32 one bits, used for bitwise complement. -/
def MASK32 : Nat := MOD32 - 1

/-- Right rotation of a 32-bit word. -/
def rotr (n x : Nat) : Nat := ((x >>> n) ||| (x <<< (32 - n))) % MOD32

/-- Lower-case sigma-0 of the message schedule. -/
def ssig0 (x : Nat) : Nat := (rotr 7 x) ^^^ (rotr 18 x) ^^^ (x >>> 3)

/-- Lower-case sigma-1 of the message schedule. -/
def ssig1 (x : Nat) : Nat := (rotr 17 x) ^^^ (rotr 19 x) ^^^ (x >>> 10)

/-- Upper-case sigma-0 of the compression function. -/
def bsig0 (x : Nat) : Nat := (rotr 2 x) ^^^ (rotr 13 x) ^^^ (rotr 22 x)

/-- Upper-case sigma-1 of the compression function. -/
def bsig1 (x : Nat) : Nat := (rotr 6 x) ^^^ (rotr 11 x) ^^^ (rotr 25 x)

/-- The 64 round constants of SHA-256. -/
def sha256K : List Nat :=
  [1116352408, 1899447441, 3049323471, 3921009573, 961987163, 1508970993,
   2453635748, 2870763221, 3624381080, 310598401, 607225278, 1426881987,
   1925078388, 2162078206, 2614888103, 3248222580, 3835390401, 4022224774,
   264347078, 604807628, 770255983, 1249150122, 1555081692, 1996064986,
   2554220882, 2821834349, 2952996808, 3210313671, 3336571891, 3584528711,
   113926993, 338241895, 666307205, 773529912, 1294757372, 1396182291,
   1695183700, 1986661051, 2177026350, 2456956037, 2730485921, 2820302411,
   3259730800, 3345764771, 3516065817, 3600352804, 4094571909, 275423344,
   430227734, 506948616, 659060556, 883997877, 958139571, 1322822218,
   1537002063, 1747873779, 1955562222, 2024104815, 2227730452, 2361852424,
   2428436474, 2756734187, 3204031479, 3329325298]

/-- The initial hash state of SHA-256. -/
def sha256H0 : List Nat :=
  [1779033703, 3144134277, 1013904242, 2773480762, 1359893119, 2600822924,
   528734635, 1541459225]

/-- Big-endian byte decomposition of `n` into `k` bytes. -/
def beBytes (k n : Nat) : List Nat :=
  (List.range k).map fun i => (n >>> (8 * (k - 1 - i))) &&& 0xff

/-- UTF-8 encoding of one character. -/
def charUtf8 (c : Char) : List Nat :=
  let n := c.toNat
  if n < 0x80 then [n]
  else if n < 0x800 then [0xc0 ||| (n >>> 6), 0x80 ||| (n &&& 0x3f)]
  else if n < 0x10000 then
    [0xe0 ||| (n >>> 12), 0x80 ||| ((n >>> 6) &&& 0x3f), 0x80 ||| (n &&& 0x3f)]
  else
    [0xf0 ||| (n >>> 18), 0x80 ||| ((n >>> 12) &&& 0x3f), 0x80 ||| ((n >>> 6) &&& 0x3f),
     0x80 ||| (n &&& 0x3f)]

/-- UTF-8 bytes of a string. -/
def utf8Bytes (s : String) : List Nat := (s.data.map charUtf8).flatten

/-- SHA-256 padding: `0x80`, zeros to 56 mod 64, then the bit length in 8 bytes. -/
def sha256Pad (msg : List Nat) : List Nat :=
  let len := msg.length
  let zeros := (120 - ((len + 1) % 64)) % 64
  msg ++ [0x80] ++ List.replicate zeros 0 ++ beBytes 8 (len * 8)

/-- Split a list into chunks of `n` elements (`n ≥ 1`). -/
def chunksAux (n : Nat) : Nat → List Nat → List (List Nat)
  | 0, _ => []
  | _ + 1, [] => []
  | fuel + 1, l => l.take n :: chunksAux n fuel (l.drop n)

/-- Chunks of `n` elements of a list. -/
def chunks (n : Nat) (l : List Nat) : List (List Nat) := chunksAux n l.length l

/-- One 32-bit big-endian word from four bytes. -/
def wordOfBytes : List Nat → Nat
  | [b0, b1, b2, b3] => (((b0 <<< 8 ||| b1) <<< 8 ||| b2) <<< 8) ||| b3
  | _ => 0

/-- Extend the 16 block words to the 64-entry message schedule. -/
def extendSchedule : Nat → List Nat → List Nat
  | 0, w => w
  | k + 1, w =>
    let i := w.length
    let wi := (ssig1 (w.getD (i - 2) 0) + w.getD (i - 7) 0 + ssig0 (w.getD (i - 15) 0) +
      w.getD (i - 16) 0) % MOD32
    extendSchedule k (w ++ [wi])

/-- One round of the SHA-256 compression function on the state `[a,b,c,d,e,f,g,h]`. -/
def compressStep (st : List Nat) (kw : Nat × Nat) : List Nat :=
  match st with
  | [a, b, c, d, e, f, g, h] =>
    let ch := (e &&& f) ^^^ ((e ^^^ MASK32) &&& g)
    let maj := (a &&& b) ^^^ (a &&& c) ^^^ (b &&& c)
    let t1 := (h + bsig1 e + ch + kw.1 + kw.2) % MOD32
    let t2 := (bsig0 a + maj) % MOD32
    [(t1 + t2) % MOD32, a, b, c, (d + t1) % MOD32, e, f, g]
  | other => other

/-- Process one 64-byte block. -/
def processBlock (h : List Nat) (block : List Nat) : List Nat :=
  let w16 := (chunks 4 block).map wordOfBytes
  let w := extendSchedule 48 w16
  let h' := (sha256K.zip w).foldl compressStep h
  h.zipWith (fun x y => (x + y) % MOD32) h'

/-- SHA-256 digest (32 bytes) of a byte list. -/
def sha256Digest (msg : List Nat) : List Nat :=
  (((chunks 64 (sha256Pad msg)).foldl processBlock sha256H0).map (beBytes 4)).flatten

/-- One lower-case hexadecimal digit. -/
def hexDigit (n : Nat) : Char :=
  if n < 10 then Char.ofNat ('0'.toNat + n) else Char.ofNat ('a'.toNat + n - 10)

/-- Lower-case hex encoding of a byte list. -/
def bytesToHex (bs : List Nat) : String :=
  String.mk ((bs.map fun b => [hexDigit (b / 16), hexDigit (b % 16)]).flatten)

/-- Source `crypto.createHash('sha256').update(s).digest('hex')`. -/
def sha256Hex (s : String) : String := bytesToHex (sha256Digest (utf8Bytes s))


/-! ### Shared data model (services/shared, `@queuemint/shared` interfaces) -/

/-- Source `FailureCategory` of the shared types. -/
inductive FailureCategory
  | TRANSIENT
  | POISON_PILL
  | SYSTEMIC
deriving Repr, DecidableEq

/-- Source `DeploymentEvent` of the shared types. -/
structure DeploymentEvent where
  deploymentId : String
  version : String
  deployedAt : Nat
  committedBy : String
deriving Repr, DecidableEq

/-- Source `ErrorPattern` of the shared types. -/
structure ErrorPattern where
  errorType : String
  errorMessage : String
  stackTrace : Option String := none
  errorCode : Option String := none
  affectedService : String
deriving Repr, DecidableEq

/-- Source `MessageEnrichment` of the shared types. -/
structure MessageEnrichment where
  retryCount : Nat
  firstSeenAt : Nat
  lastFailedAt : Nat
  similarFailuresLast1h : Nat
  recentDeployments : List DeploymentEvent
  errorPattern : ErrorPattern
deriving Repr, DecidableEq

/-- Source `EnrichedDLQMessage` of the shared types (the SQS attribute block is not
consulted by any function modelled here and is omitted). -/
structure EnrichedDLQMessage where
  messageId : String
  receiptHandle : String
  body : String
  sourceQueue : String
  enrichment : MessageEnrichment
deriving Repr, DecidableEq

/-- The `action` field of `RecommendedAction`. -/
inductive ActionKind
  | REPLAY
  | ARCHIVE
  | ESCALATE
deriving Repr, DecidableEq

/-- The `escalationSeverity` values. -/
inductive Severity
  | P1
  | P2
  | P3
deriving Repr, DecidableEq

/-- Source `RecommendedAction` of the shared types. -/
structure RecommendedAction where
  action : ActionKind
  retryDelaySeconds : Option Nat := none
  maxRetries : Option Nat := none
  escalationSeverity : Option Severity := none
  humanReviewRequired : Bool
deriving Repr, DecidableEq

/-- Token usage of `ClassificationMetadata`. -/
structure TokenUsage where
  input : Nat
  output : Nat
deriving Repr, DecidableEq

/-- Source `ClassificationMetadata`.  `cachedAt` is the extra attribute `cacheResult`
stores into the cached copy of the metadata (absent from fresh results). -/
structure ClassificationMetadata where
  llmModel : String
  tokens : TokenUsage
  latencyMs : Nat
  cacheHit : Bool
  cachedAt : Option Nat := none
deriving Repr, DecidableEq

/-- Source `ClassificationResult`.  The TypeScript declaration makes `category`
mandatory, but the value returned from the cache-hit path of
`FailureClassifier.classify` is a DynamoDB item cast with `as
ClassificationResult`, and the projection used there can omit the category
(see `checkCache`); `Option` models the runtime value space. -/
structure ClassificationResult where
  category : Option FailureCategory
  confidence : ℚ
  reasoning : String
  recommendedAction : RecommendedAction
  metadata : ClassificationMetadata
deriving Repr, DecidableEq

/-- Source `generateSemanticHash` of semantic-hash.ts: `lines[0] || errorMessage`
(the whole message when the first line is the empty string). -/
def firstLineJS (s : String) : String :=
  let l0 := String.mk (s.data.takeWhile (fun c => c != '\n'))
  if l0 = "" then s else l0

/-- The `|`-joined component string hashed by `generateSemanticHash`:
lower-cased type, upper-cased code, normalized lower-cased first line of the
message, lower-cased service, with empty components dropped
(`filter(Boolean)`). -/
def semanticHashCombined (p : ErrorPattern) : String :=
  let normalizedType := trimJS (toLowerStr p.errorType)
  let normalizedCode := match p.errorCode with
    | some c => trimJS (toUpperStr c)
    | none => ""
  let firstLine := trimJS (toLowerStr (firstLineJS p.errorMessage))
  let normalizedMessage := normalizeDynamicValues firstLine
  let normalizedService := trimJS (toLowerStr p.affectedService)
  let components :=
    [normalizedType, normalizedCode, normalizedMessage, normalizedService].filter
      (fun s => s ≠ "")
  joinSep "|" components

/-- Source `generateSemanticHash`: first 16 hex characters of the SHA-256 of the
combined components. -/
def generateSemanticHash (p : ErrorPattern) : String :=
  takeStr 16 (sha256Hex (semanticHashCombined p))

/-- The value-normalization map lifted to an error pattern, as the spec's
testable property `fingerprint(normalize(x)) = fingerprint(x)` reads it:
the pattern with its message value-normalized. -/
def normalizePattern (p : ErrorPattern) : ErrorPattern :=
  { p with errorMessage := normalizeDynamicValues p.errorMessage }


/-! ### Monitor: deduplication ledger and the per-message pipeline

From services/dlq-monitor/src/deduplication.ts and the per-message loop of the
monitor handler (`processMessages`).  The DynamoDB dedup table is modelled as the
optional entry for the `(messageId, queueName)` key; `ddbOk = false` models the
catch branch (any read/write failure fails open). -/

/-- One ledger row of the deduplication table. -/
structure LedgerEntry where
  firstSeenAt : Nat
  lastSeenAt : Nat
  retryCount : Nat
  ttl : Nat
deriving Repr, DecidableEq

/-- Source `DeduplicationResult` of the monitor's types. -/
structure DeduplicationResult where
  isDuplicate : Bool
  retryCount : Nat
deriving Repr, DecidableEq

/-- Source `checkAndRecordMessage` of deduplication.ts, as a pure function of the
stored entry: returns the result and the entry written back.  On a DynamoDB
error (`ddbOk = false`) it returns `isDuplicate = false, retryCount = 0` and
writes nothing (fail open, to avoid message loss). -/
def checkAndRecordMessage (entry : Option LedgerEntry) (now : Nat) (ddbOk : Bool) :
    DeduplicationResult × Option LedgerEntry :=
  if !ddbOk then ({ isDuplicate := false, retryCount := 0 }, entry)
  else
    let ttl := now / 1000 + 86400 * 7
    match entry with
    | some e =>
      let rc := e.retryCount + 1
      ({ isDuplicate := true, retryCount := rc },
       some { firstSeenAt := e.firstSeenAt, lastSeenAt := now, retryCount := rc, ttl := ttl })
    | none =>
      ({ isDuplicate := false, retryCount := 0 },
       some { firstSeenAt := now, lastSeenAt := now, retryCount := 0, ttl := ttl })

/-- External requests the monitor issues for one message, in order. -/
inductive MonitorEffect
  | enrichAttempt
  | publishSucceeded
  | publishFailed
  | deleteSource
deriving Repr, DecidableEq

/-- Outcome counters of the per-message loop. -/
structure MonitorOutcome where
  effects : List MonitorEffect
  processed : Bool
  failed : Bool
  forwarded : Bool
deriving Repr, DecidableEq

/-- The per-message body of `processMessages` in the monitor handler:
deduplicate; if `isDuplicate && retryCount > 3` delete the message and skip
enrichment; otherwise enrich, forward to EventBridge, and delete only when the
forward succeeded (a throw from enrichment or publish reaches the catch block,
which leaves the message in the queue). -/
def processMessage (entry : Option LedgerEntry) (now : Nat)
    (ddbOk enrichOk publishOk : Bool) : MonitorOutcome × Option LedgerEntry :=
  let dedup := (checkAndRecordMessage entry now ddbOk).1
  let entry' := (checkAndRecordMessage entry now ddbOk).2
  if dedup.isDuplicate && decide (3 < dedup.retryCount) then
    ({ effects := [.deleteSource], processed := true, failed := false, forwarded := false },
     entry')
  else if !enrichOk then
    ({ effects := [.enrichAttempt], processed := false, failed := true, forwarded := false },
     entry')
  else if !publishOk then
    ({ effects := [.enrichAttempt, .publishFailed], processed := false, failed := true,
       forwarded := false }, entry')
  else
    ({ effects := [.enrichAttempt, .publishSucceeded, .deleteSource], processed := true,
       failed := false, forwarded := true }, entry')


/-! ### Analyzer: `FailureClassifier` of classification.ts

The semantic-cache row lives in the same DynamoDB table under the key
`cache#<hash>`; `cacheResult` stores the spread `...result` (so the category is
stored under the attribute name `category`) together with `metadata.cachedAt`
and a TTL.  `checkCache` reads it back with
`ProjectionExpression: 'classification, confidence, reasoning, recommendedAction, metadata'`;
DynamoDB returns only the attributes named there, and the stored item has no
attribute called `classification`, so the item handed back to `classify` carries
no category.  The regular-expression rule table of `matchErrorPattern`
(error-patterns.ts) and the LLM reply are external inputs of a classification
run and enter the model as oracle values. -/

/-- Environment-variable configuration of the classifier. -/
def CONFIDENCE_THRESHOLD : ℚ := 85 / 100

/-- Source `CACHE_TTL_HOURS` (default 1). -/
def CACHE_TTL_HOURS : Nat := 1

/-- Source `SYSTEMIC_THRESHOLD` (default 10). -/
def SYSTEMIC_THRESHOLD : Nat := 10

/-- The attributes `cacheResult` writes for the key `cache#<hash>`. -/
structure StoredCacheItem where
  messageId : String
  semanticHash : String
  category : Option FailureCategory
  confidence : ℚ
  reasoning : String
  recommendedAction : RecommendedAction
  metadata : ClassificationMetadata
  ttl : Nat
deriving Repr, DecidableEq

/-- Source `cacheResult`: the item written to DynamoDB for `cache#<hash>` (the write
itself is non-fatal and may be dropped by the store). -/
def cacheResult (semanticHash : String) (result : ClassificationResult) (now : Nat) :
    StoredCacheItem :=
  { messageId := "cache#" ++ semanticHash
    semanticHash := semanticHash
    category := result.category
    confidence := result.confidence
    reasoning := result.reasoning
    recommendedAction := result.recommendedAction
    metadata := { result.metadata with cachedAt := some now }
    ttl := now / 1000 + CACHE_TTL_HOURS * 60 * 60 }

/-- Source `checkCache`: `item` is the stored row for `cache#<hash>` (`none` when the
key is absent or the read failed, both treated as a miss).  A present row is
returned through the projection — which omits the category, because the
expression asks for `classification` while the row stores `category` — unless
`(now − cachedAt) / 3600000 > CACHE_TTL_HOURS` (with `cachedAt` defaulted to 0
when missing). -/
def checkCache (item : Option StoredCacheItem) (now : Nat) :
    Option ClassificationResult :=
  match item with
  | none => none
  | some it =>
    let cachedAt := it.metadata.cachedAt.getD 0
    if CACHE_TTL_HOURS * 3600000 < now - cachedAt then none
    else
      some { category := none
             confidence := it.confidence
             reasoning := it.reasoning
             recommendedAction := it.recommendedAction
             metadata := it.metadata }

/-- Source `getRecommendedAction` of classification.ts. -/
def getRecommendedAction (category : FailureCategory) (retryCount : Nat) :
    RecommendedAction :=
  match category with
  | .TRANSIENT =>
    { action := .REPLAY
      retryDelaySeconds := some (min (30 * 2 ^ retryCount) 900)
      maxRetries := some 3
      humanReviewRequired := false }
  | .POISON_PILL =>
    { action := .ARCHIVE
      humanReviewRequired := true }
  | .SYSTEMIC =>
    { action := .ESCALATE
      escalationSeverity := some .P1
      humanReviewRequired := true }

/-- The outcome of `matchErrorPattern` on the message's error text: the first
rule of the regex table that matches, if any (an oracle input of the model). -/
structure PatternRuleMatch where
  category : FailureCategory
  confidence : ℚ
  ruleName : String
  description : String
deriving Repr, DecidableEq

/-- A successful, validated LLM reply together with its token usage. -/
structure LLMOutcome where
  category : FailureCategory
  confidence : ℚ
  reasoning : String
  inputTokens : Nat
  outputTokens : Nat
  latencyMs : Nat
deriving Repr, DecidableEq

/-- The external inputs of one `classify` run. -/
structure ClassifierEnv where
  /-- DynamoDB row for `cache#<hash>` (`none`: absent or read error). -/
  cacheItem : Option StoredCacheItem
  /-- `Date.now()` at the cache-freshness check. -/
  now : Nat
  /-- Elapsed `Date.now() - startTime` written into `metadata.latencyMs`. -/
  latencyMs : Nat
  /-- `matchErrorPattern` outcome for the message's error text. -/
  patternRule : Option PatternRuleMatch
  /-- LLM call outcome (`none`: error, timeout or invalid reply). -/
  llmOutcome : Option LLMOutcome
  /-- `process.env.LLM_MODEL` default. -/
  llmModelName : String
deriving Repr, DecidableEq

/-- Source `applyHeuristics`: deployment-correlation first, then the pattern table. -/
def applyHeuristics (env : ClassifierEnv) (message : EnrichedDLQMessage) :
    Option PatternRuleMatch :=
  if SYSTEMIC_THRESHOLD ≤ message.enrichment.similarFailuresLast1h &&
      !message.enrichment.recentDeployments.isEmpty then
    some { category := .SYSTEMIC
           confidence := 92 / 100
           ruleName := "Deployment Correlation"
           description := toString message.enrichment.similarFailuresLast1h ++
             " similar failures after recent deployment" }
  else env.patternRule

/-- The heuristic/LLM/fallback part of `classify` (steps 2 and 3), returning
the result and the cache row written on the cache-miss paths (`none` when the
conservative fallback is taken, which does not cache). -/
def classifyUncached (env : ClassifierEnv) (message : EnrichedDLQMessage)
    (semanticHash : String) : ClassificationResult × Option StoredCacheItem :=
  let rc := message.enrichment.retryCount
  match applyHeuristics env message with
  | some h =>
    if CONFIDENCE_THRESHOLD ≤ h.confidence then
      let result : ClassificationResult :=
        { category := some h.category
          confidence := h.confidence
          reasoning := "Heuristic rule: " ++ h.description
          recommendedAction := getRecommendedAction h.category rc
          metadata :=
            { llmModel := "heuristic"
              tokens := { input := 0, output := 0 }
              latencyMs := env.latencyMs
              cacheHit := false } }
      (result, some (cacheResult semanticHash result env.now))
    else classifyByLLM env message semanticHash
  | none => classifyByLLM env message semanticHash
where
  /-- Step 3: the LLM path with its conservative fallback. -/
  classifyByLLM (env : ClassifierEnv) (message : EnrichedDLQMessage)
      (semanticHash : String) : ClassificationResult × Option StoredCacheItem :=
    let rc := message.enrichment.retryCount
    match env.llmOutcome with
    | some llm =>
      let result : ClassificationResult :=
        { category := some llm.category
          confidence := llm.confidence
          reasoning := llm.reasoning
          recommendedAction := getRecommendedAction llm.category rc
          metadata :=
            { llmModel := env.llmModelName
              tokens := { input := llm.inputTokens, output := llm.outputTokens }
              latencyMs := llm.latencyMs
              cacheHit := false } }
      (result, some (cacheResult semanticHash result env.now))
    | none =>
      ({ category := some .SYSTEMIC
         confidence := 6 / 10
         reasoning := "LLM classification failed, requires human review"
         recommendedAction := getRecommendedAction .SYSTEMIC rc
         metadata :=
           { llmModel := "fallback"
             tokens := { input := 0, output := 0 }
             latencyMs := env.latencyMs
             cacheHit := false } }, none)

/-- Source `FailureClassifier.classify`: semantic-cache lookup first — a fresh entry is
returned with `cacheHit := true` and a fresh latency — then heuristics and LLM. -/
def classify (env : ClassifierEnv) (message : EnrichedDLQMessage) :
    ClassificationResult × Option StoredCacheItem :=
  let semanticHash := generateSemanticHash message.enrichment.errorPattern
  match checkCache env.cacheItem env.now with
  | some cached =>
    ({ cached with
        metadata := { cached.metadata with cacheHit := true, latencyMs := env.latencyMs } },
     none)
  | none => classifyUncached env message semanticHash


/-! ### Analyzer handler: the DynamoDB audit record -/

/-- Source `recoveryOutcome` values of `FailureAnalysisRecord`. -/
inductive RecoveryOutcome
  | PENDING
  | SUCCESS
  | FAILED
deriving Repr, DecidableEq

/-- Source `actionTaken` values of `FailureAnalysisRecord`. -/
inductive ActionTaken
  | REPLAYED
  | ARCHIVED
  | ESCALATED
deriving Repr, DecidableEq

/-- Source `mapActionToTaken` of the analyzer handler. -/
def mapActionToTaken : ActionKind → ActionTaken
  | .REPLAY => .REPLAYED
  | .ARCHIVE => .ARCHIVED
  | .ESCALATE => .ESCALATED

/-- JavaScript `a || b` on an optional number: `0` and `undefined` are falsy. -/
def jsOr (o : Option Nat) (b : Nat) : Nat :=
  match o with
  | some v => if v = 0 then b else v
  | none => b

/-- Source `FailureAnalysisRecord` of the shared types (the record keyed by
`messageId` in the failure-analysis table). -/
structure FailureAnalysisRecord where
  messageId : String
  timestamp : Nat
  sourceQueue : String
  classification : Option FailureCategory
  confidence : ℚ
  errorMessage : String
  errorType : String
  errorCode : Option String
  llmReasoning : String
  llmModel : String
  tokens : TokenUsage
  actionTaken : ActionTaken
  recoveryOutcome : RecoveryOutcome
  retryCount : Nat
  retryScheduledFor : Option Nat
  suspectedDeployment : Option String
  similarFailuresCount : Nat
  semanticHash : String
  ttl : Nat
deriving Repr, DecidableEq

/-- Source `storeClassificationResult` of the analyzer handler: the record written
(with a `PutCommand`) after classification; `recoveryOutcome` is always
`PENDING` here. -/
def storeClassificationResult (message : EnrichedDLQMessage)
    (classification : ClassificationResult) (now : Nat) : FailureAnalysisRecord :=
  { messageId := message.messageId
    timestamp := now
    sourceQueue := message.sourceQueue
    classification := classification.category
    confidence := classification.confidence
    errorMessage := takeStr 500 message.enrichment.errorPattern.errorMessage
    errorType := message.enrichment.errorPattern.errorType
    errorCode := message.enrichment.errorPattern.errorCode
    llmReasoning := classification.reasoning
    llmModel := classification.metadata.llmModel
    tokens := classification.metadata.tokens
    actionTaken := mapActionToTaken classification.recommendedAction.action
    recoveryOutcome := .PENDING
    retryCount := message.enrichment.retryCount
    retryScheduledFor :=
      if classification.recommendedAction.action = .REPLAY then
        some (now + (jsOr classification.recommendedAction.retryDelaySeconds 0) * 1000)
      else none
    suspectedDeployment :=
      (message.enrichment.recentDeployments.head?).map DeploymentEvent.version
    similarFailuresCount := message.enrichment.similarFailuresLast1h
    semanticHash := generateSemanticHash message.enrichment.errorPattern
    ttl := now / 1000 + 30 * 24 * 60 * 60 }

/-! ### Executor: the three action handlers and the dispatcher

From services/action-executors.  Each handler returns its `ActionResult`
together with the list of external requests it issued, in order.  The
`recordUpdate` effect exists only as vocabulary for the classification-record
write-back described by the specification; no handler ever emits it. -/

/-- Backoff constants of the executors (constants.ts). -/
def MIN_BACKOFF_SECONDS : Nat := 30

/-- Source `MAX_BACKOFF_SECONDS` (15 minutes). -/
def MAX_BACKOFF_SECONDS : Nat := 900

/-- Source `BACKOFF_MULTIPLIER`. -/
def BACKOFF_MULTIPLIER : Nat := 2

/-- Source `MAX_RETRY_ATTEMPTS`. -/
def MAX_RETRY_ATTEMPTS : Nat := 5

/-- The S3 key root for poison pills (`S3_POISON_PILL_PREFIX` in constants.ts). -/
def s3PoisonPillKeyRoot : String := "poison-pills"

/-- Source `calculateBackoffDelay` of the transient handler:
`min(MIN_BACKOFF * MULTIPLIER ^ retryCount, MAX_BACKOFF)`. -/
def calculateBackoffDelay (retryCount : Nat) : Nat :=
  min (MIN_BACKOFF_SECONDS * BACKOFF_MULTIPLIER ^ retryCount) MAX_BACKOFF_SECONDS

/-- Environment-variable configuration of the executors (constants.ts). -/
structure ExecConfig where
  originalQueueUrl : String
  poisonPillBucket : String
  snsAlertTopicArn : String
  pagerDutyIntegrationKey : String
deriving Repr, DecidableEq

/-- Outcomes of the executors' external calls, plus ambient values. -/
structure ExecEnv where
  /-- `SendMessageCommand` outcome. -/
  sqsSendOk : Bool
  /-- `PutObjectCommand` outcome. -/
  s3PutOk : Bool
  /-- SNS `PublishCommand` outcome. -/
  snsPublishOk : Bool
  /-- PagerDuty POST outcome. -/
  pagerDutyOk : Bool
  /-- `dedup_key` echoed by the PagerDuty response. -/
  pagerDutyDedupKeyEcho : String
  /-- Message of the exception thrown by a failed call. -/
  thrownMessage : String
  /-- `new Date().toISOString().split('T')[0]`, the YYYY-MM-DD date. -/
  today : String
deriving Repr, DecidableEq

/-- Source `ActionContext` of the executors' types. -/
structure ActionContext where
  message : EnrichedDLQMessage
  classification : ClassificationResult
deriving Repr, DecidableEq

/-- Source `ActionResult` of the executors' types, with the `details` record
flattened into optional fields. -/
structure ActionResult where
  success : Bool
  action : ActionKind
  messageId : String
  error : Option String := none
  replayDelaySeconds : Option Nat := none
  targetQueue : Option String := none
  s3Key : Option String := none
  pagerDutyIncidentId : Option String := none
deriving Repr, DecidableEq

/-- External requests an executor issues, in order. -/
inductive ExecutorEffect
  | sqsSend (queueUrl body : String) (delaySeconds retryCountAttr : Nat)
      (originalMessageId categoryAttr : String)
  | s3Put (bucket key : String)
  | snsPublish (topicArn subject : String)
  | pagerDutyPost (routingKey dedupKey severity : String)
  | recordUpdate (messageId : String) (outcome : RecoveryOutcome)
deriving Repr, DecidableEq

/-- Whether an effect is a classification-record update. -/
def ExecutorEffect.isRecordUpdate : ExecutorEffect → Bool
  | .recordUpdate _ _ => true
  | _ => false

/-- The category string placed in the `queuemint.classificationCategory`
message attribute (`undefined` is JS's rendering of a missing category). -/
def categoryName : Option FailureCategory → String
  | some .TRANSIENT => "TRANSIENT"
  | some .POISON_PILL => "POISON_PILL"
  | some .SYSTEMIC => "SYSTEMIC"
  | none => "undefined"

/-- Source `handleTransientFailure` of transient-handler.ts. -/
def handleTransientFailure (cfg : ExecConfig) (env : ExecEnv) (ctx : ActionContext) :
    ActionResult × List ExecutorEffect :=
  let message := ctx.message
  let retryCount := message.enrichment.retryCount
  if MAX_RETRY_ATTEMPTS ≤ retryCount then
    ({ success := false
       action := .REPLAY
       messageId := message.messageId
       error := some ("Max retry attempts (" ++ toString MAX_RETRY_ATTEMPTS ++ ") exceeded") },
     [])
  else
    let delaySeconds :=
      jsOr ctx.classification.recommendedAction.retryDelaySeconds
        (calculateBackoffDelay retryCount)
    let send := ExecutorEffect.sqsSend cfg.originalQueueUrl message.body
      (min delaySeconds 900) (retryCount + 1) message.messageId
      (categoryName ctx.classification.category)
    if env.sqsSendOk then
      ({ success := true
         action := .REPLAY
         messageId := message.messageId
         replayDelaySeconds := some delaySeconds
         targetQueue := some cfg.originalQueueUrl }, [send])
    else
      ({ success := false
         action := .REPLAY
         messageId := message.messageId
         error := some env.thrownMessage }, [send])

/-- Source `generateS3Key` of poison-pill-handler.ts; `today` is the YYYY-MM-DD part
of `new Date().toISOString()`. -/
def generateS3Key (today messageId sourceQueue : String) : String :=
  s3PoisonPillKeyRoot ++ "/" ++ today ++ "/" ++ sourceQueue ++ "/" ++ messageId ++ ".json"

/-- Source `handlePoisonPill` of poison-pill-handler.ts: archive to S3, then alert via
SNS.  A throw from the S3 put reaches the catch block before any SNS request is
issued. -/
def handlePoisonPill (cfg : ExecConfig) (env : ExecEnv) (ctx : ActionContext) :
    ActionResult × List ExecutorEffect :=
  let message := ctx.message
  let s3Key := generateS3Key env.today message.messageId message.sourceQueue
  let put := ExecutorEffect.s3Put cfg.poisonPillBucket s3Key
  if !env.s3PutOk then
    ({ success := false
       action := .ARCHIVE
       messageId := message.messageId
       error := some env.thrownMessage }, [put])
  else
    let publish := ExecutorEffect.snsPublish cfg.snsAlertTopicArn
      ("[QueueMint] Poison Pill Detected: " ++ message.sourceQueue)
    if !env.snsPublishOk then
      ({ success := false
         action := .ARCHIVE
         messageId := message.messageId
         error := some env.thrownMessage }, [put, publish])
    else
      ({ success := true
         action := .ARCHIVE
         messageId := message.messageId
         s3Key := some s3Key }, [put, publish])

/-- Source `mapSeverity` of systemic-handler.ts. -/
def mapSeverity : Option Severity → String
  | none => "error"
  | some .P1 => "critical"
  | some .P2 => "error"
  | some .P3 => "warning"

/-- Source `handleSystemicFailure` of systemic-handler.ts. -/
def handleSystemicFailure (cfg : ExecConfig) (env : ExecEnv) (ctx : ActionContext) :
    ActionResult × List ExecutorEffect :=
  let message := ctx.message
  let severity := mapSeverity ctx.classification.recommendedAction.escalationSeverity
  let dedupKey := "queuemint-systemic-" ++ message.sourceQueue ++ "-" ++
    message.enrichment.errorPattern.errorType
  let post := ExecutorEffect.pagerDutyPost cfg.pagerDutyIntegrationKey dedupKey severity
  if env.pagerDutyOk then
    ({ success := true
       action := .ESCALATE
       messageId := message.messageId
       pagerDutyIncidentId := some env.pagerDutyDedupKeyEcho }, [post])
  else
    ({ success := false
       action := .ESCALATE
       messageId := message.messageId
       error := some env.thrownMessage }, [post])

/-- The executor dispatcher (the `handler` of the action-executors index):
switch on `classification.category`; on a failed result or an unknown category
it throws so the bus retries the event.  Returns the effects issued and the
thrown error, if any.  No branch issues any classification-record request. -/
def executorHandler (cfg : ExecConfig) (env : ExecEnv) (ctx : ActionContext) :
    List ExecutorEffect × Option String :=
  match ctx.classification.category with
  | some .TRANSIENT =>
    let (result, effects) := handleTransientFailure cfg env ctx
    (effects, if result.success then none
      else some ("Action execution failed: " ++ (result.error.getD "undefined")))
  | some .POISON_PILL =>
    let (result, effects) := handlePoisonPill cfg env ctx
    (effects, if result.success then none
      else some ("Action execution failed: " ++ (result.error.getD "undefined")))
  | some .SYSTEMIC =>
    let (result, effects) := handleSystemicFailure cfg env ctx
    (effects, if result.success then none
      else some ("Action execution failed: " ++ (result.error.getD "undefined")))
  | none => ([], some "Unknown classification category: undefined")


/-! ## Claims -/

/-- Error pattern used for the fingerprint claims: a message with one dynamic
value on its single line. -/
def unitTimeoutPattern : ErrorPattern :=
  { errorType := "Error"
    errorMessage := "timeout after 5000ms"
    affectedService := "svc" }

/-- Error pattern whose first line is free of dynamic values while its second
line contains one. -/
def secondLinePattern : ErrorPattern :=
  { errorType := "Error"
    errorMessage := "bad input\nat 12345678 line"
    affectedService := "svc" }

/-- C7 counterexample: value normalization does not preserve the 3-digit HTTP
status code 429 — `\b\d{3,}\b` matches it and rewrites it to `X`, so the
normalized first line no longer contains it. -/
theorem c7_counterexample :
    normalizeDynamicValues "request failed with status code 429" =
      "request failed with status code X" ∧
    normalizeDynamicValues "request failed with status code 429" ≠
      "request failed with status code 429" := by
  decide

/-- C7 (amended): value normalization replaces every bare integer of three or
more digits with `X`, including the 3-digit HTTP status codes 429 and 503;
integers of one or two digits are preserved. -/
theorem c7_amended :
    normalizeDynamicValues "request failed with status code 429" =
      "request failed with status code X" ∧
    normalizeDynamicValues "service 503 unavailable" = "service X unavailable" ∧
    normalizeDynamicValues "retry 42 of 99 failed" = "retry 42 of 99 failed" ∧
    normalizeDynamicValues "user id 12345 not found" = "user id X not found" := by
  decide

set_option maxRecDepth 100000 in
set_option maxHeartbeats 2000000 in
/-- C8 counterexample: fingerprinting is not idempotent under value
normalization.  Normalizing `"timeout after 5000ms"` yields
`"timeout after Xms"`; re-fingerprinting lower-cases the placeholder to
`"xms"`, so the combined component strings — and hence the 16-hex-character
hashes — differ. -/
theorem c8_counterexample :
    generateSemanticHash (normalizePattern unitTimeoutPattern) ≠
      generateSemanticHash unitTimeoutPattern ∧
    generateSemanticHash unitTimeoutPattern = "62d9d45bd26fe069" ∧
    generateSemanticHash (normalizePattern unitTimeoutPattern) = "5632426e87ab28c8" := by
  decide

/-- C8 (amended): `fingerprint(normalize(x)) = fingerprint(x)` does hold
whenever value normalization leaves the first line of the message unchanged
(later lines may change freely, as the fingerprint reads only the first line);
in general it fails because the inserted `X` placeholders are lower-cased on
re-fingerprinting. -/
theorem c8_amended (p : ErrorPattern)
    (h : firstLineJS (normalizeDynamicValues p.errorMessage) = firstLineJS p.errorMessage) :
    generateSemanticHash (normalizePattern p) = generateSemanticHash p := by
  simp only [generateSemanticHash, semanticHashCombined, normalizePattern]
  rw [h]

set_option maxRecDepth 100000 in
set_option maxHeartbeats 2000000 in
/-- C8 amended witness: a pattern whose second line carries the dynamic value. -/
theorem c8_amended_witness :
    firstLineJS (normalizeDynamicValues secondLinePattern.errorMessage) =
      firstLineJS secondLinePattern.errorMessage ∧
    generateSemanticHash (normalizePattern secondLinePattern) =
      generateSemanticHash secondLinePattern :=
  ⟨by decide, c8_amended secondLinePattern (by decide)⟩


/-! ### Fixtures for the remaining claims -/

/-- Executor configuration used by the concrete scenarios. -/
def execCfg : ExecConfig :=
  { originalQueueUrl := "https://sqs.us-east-1.amazonaws.com/123/webhook-queue"
    poisonPillBucket := "qm-poison"
    snsAlertTopicArn := "arn:aws:sns:us-east-1:123:alerts"
    pagerDutyIntegrationKey := "pd-key" }

/-- Executor environment in which every external call succeeds. -/
def execEnvOk : ExecEnv :=
  { sqsSendOk := true
    s3PutOk := true
    snsPublishOk := true
    pagerDutyOk := true
    pagerDutyDedupKeyEcho := "qm-dedup"
    thrownMessage := "call failed"
    today := "2026-02-16" }

/-- Executor environment in which the S3 put throws. -/
def execEnvS3Fail : ExecEnv := { execEnvOk with s3PutOk := false }

/-- A transient network error pattern. -/
def networkPattern : ErrorPattern :=
  { errorType := "NetworkError"
    errorMessage := "ETIMEDOUT: connection timeout"
    errorCode := some "ETIMEDOUT"
    affectedService := "webhook-service" }

/-- A transient message with the given stored retry count. -/
def mkTransientMessage (rc : Nat) : EnrichedDLQMessage :=
  { messageId := "msg-123"
    receiptHandle := "rh-1"
    body := "payload"
    sourceQueue := "webhook-dlq"
    enrichment :=
      { retryCount := rc
        firstSeenAt := 1000
        lastFailedAt := 2000
        similarFailuresLast1h := 2
        recentDeployments := []
        errorPattern := networkPattern } }

/-- A TRANSIENT classification whose recommended action carries the given
retry delay. -/
def transientClassification (rds : Option Nat) : ClassificationResult :=
  { category := some .TRANSIENT
    confidence := 96 / 100
    reasoning := "Heuristic rule: Network timeout - temporary connectivity issue"
    recommendedAction :=
      { action := .REPLAY
        retryDelaySeconds := rds
        maxRetries := some 3
        humanReviewRequired := false }
    metadata :=
      { llmModel := "heuristic"
        tokens := { input := 0, output := 0 }
        latencyMs := 5
        cacheHit := false } }

/-- A classification result as first produced and then cached. -/
def cachedTransientResult : ClassificationResult :=
  { category := some .TRANSIENT
    confidence := 95 / 100
    reasoning := "Cached result"
    recommendedAction :=
      { action := .REPLAY
        retryDelaySeconds := some 30
        maxRetries := some 3
        humanReviewRequired := false }
    metadata :=
      { llmModel := "heuristic"
        tokens := { input := 0, output := 0 }
        latencyMs := 12
        cacheHit := false } }

/-- A classifier environment holding a one-hour-fresh cache row for the
message's hash. -/
def c2Env : ClassifierEnv :=
  { cacheItem := some (cacheResult "abc123" cachedTransientResult 1000000)
    now := 1003600
    latencyMs := 4
    patternRule := none
    llmOutcome := none
    llmModelName := "llm-model" }

/-- The message observed on the cache-hit run. -/
def c2Message : EnrichedDLQMessage := mkTransientMessage 0

/-- A ledger entry already at the monitor hard cap. -/
def cappedEntry : LedgerEntry :=
  { firstSeenAt := 1, lastSeenAt := 2, retryCount := 3, ttl := 604800 }

/-- A ledger entry one below the monitor hard cap. -/
def nearCapEntry : LedgerEntry :=
  { firstSeenAt := 1, lastSeenAt := 2, retryCount := 2, ttl := 604800 }

/-- A poison-pill message. -/
def poisonMessage : EnrichedDLQMessage :=
  { messageId := "msg-9"
    receiptHandle := "rh-9"
    body := "bad payload"
    sourceQueue := "orders-dlq"
    enrichment :=
      { retryCount := 0
        firstSeenAt := 1000
        lastFailedAt := 2000
        similarFailuresLast1h := 1
        recentDeployments := []
        errorPattern :=
          { errorType := "TypeError"
            errorMessage := "null pointer in diff processing"
            affectedService := "orders-service" } } }

/-- A POISON_PILL classification. -/
def poisonClassification : ClassificationResult :=
  { category := some .POISON_PILL
    confidence := 89 / 100
    reasoning := "Heuristic rule: Null pointer - missing or corrupt data"
    recommendedAction := { action := .ARCHIVE, humanReviewRequired := true }
    metadata :=
      { llmModel := "heuristic"
        tokens := { input := 0, output := 0 }
        latencyMs := 6
        cacheHit := false } }

/-- Whether a trace contains an SNS publish request. -/
def hasSnsPublish (effects : List ExecutorEffect) : Bool :=
  effects.any fun e =>
    match e with
    | .snsPublish _ _ => true
    | _ => false

/-- C1: the Executor performs no outcome write-back.  On a successfully
handled TRANSIENT classification the dispatcher's trace is the single SQS
re-enqueue — it contains no classification-record update of any kind — and the
only record ever written for the message is the Analyzer's, with
`recoveryOutcome = PENDING`. -/
theorem c1_no_outcome_write_back :
    executorHandler execCfg execEnvOk
        { message := mkTransientMessage 0, classification := transientClassification (some 30) } =
      ([ExecutorEffect.sqsSend execCfg.originalQueueUrl "payload" 30 1 "msg-123" "TRANSIENT"],
        none) ∧
    ((executorHandler execCfg execEnvOk
        { message := mkTransientMessage 0,
          classification := transientClassification (some 30) }).1.all
      fun e => !e.isRecordUpdate) = true ∧
    (storeClassificationResult (mkTransientMessage 0) (transientClassification (some 30))
        5000).recoveryOutcome = .PENDING :=
  ⟨rfl, rfl, rfl⟩


/-- C2 counterexample: on a fresh cache hit, `classify` does not tag the result
with model `cache` (it keeps the cached `llmModel`, here `heuristic`, and only
flips `metadata.cacheHit`), and the returned result carries no category at all:
the projection's `classification` attribute does not exist on the stored row,
whose category sits under the attribute name `category`. -/
theorem c2_counterexample :
    (classify c2Env c2Message).1.metadata.llmModel = "heuristic" ∧
    (classify c2Env c2Message).1.metadata.llmModel ≠ "cache" ∧
    (classify c2Env c2Message).1.category = none ∧
    cachedTransientResult.category = some .TRANSIENT ∧
    (classify c2Env c2Message).1.metadata.cacheHit = true :=
  ⟨rfl, by decide, rfl, rfl, rfl⟩

/-- C2 (amended): when the cache holds a row written by `cacheResult` that is
at most one hour old, `classify` returns that row as projected: confidence,
reasoning and recommended action are preserved, `metadata.cacheHit` is set,
`metadata.llmModel` stays the original model tag (there is no `cache` tag), and
the category is absent because the projection requests the nonexistent
attribute `classification`. -/
theorem c2_amended (r : ClassificationResult) (h : String) (t now lat : Nat)
    (msg : EnrichedDLQMessage) (pr : Option PatternRuleMatch) (llm : Option LLMOutcome)
    (mn : String) (hfresh : now - t ≤ CACHE_TTL_HOURS * 3600000) :
    (classify
        { cacheItem := some (cacheResult h r t), now := now, latencyMs := lat,
          patternRule := pr, llmOutcome := llm, llmModelName := mn } msg).1 =
      { category := none
        confidence := r.confidence
        reasoning := r.reasoning
        recommendedAction := r.recommendedAction
        metadata :=
          { llmModel := r.metadata.llmModel
            tokens := r.metadata.tokens
            latencyMs := lat
            cacheHit := true
            cachedAt := some t } } := by
  unfold classify checkCache cacheResult
  simp only [Option.getD]
  rw [if_neg (Nat.not_lt.mpr hfresh)]

/-- C2 amended witness: the concrete fresh cache row of the counterexample. -/
theorem c2_amended_witness :
    1003600 - 1000000 ≤ CACHE_TTL_HOURS * 3600000 ∧
    (classify c2Env c2Message).1 =
      { category := none
        confidence := cachedTransientResult.confidence
        reasoning := cachedTransientResult.reasoning
        recommendedAction := cachedTransientResult.recommendedAction
        metadata :=
          { llmModel := cachedTransientResult.metadata.llmModel
            tokens := cachedTransientResult.metadata.tokens
            latencyMs := 4
            cacheHit := true
            cachedAt := some 1000000 } } :=
  ⟨by decide,
   c2_amended cachedTransientResult "abc123" 1000000 1003600 4 c2Message none none
     "llm-model" (by decide)⟩


/-- C3: with the ledger available, a stored retry count at or above the hard
cap (3) makes the monitor delete the message and do nothing else — no
enrichment, no publish; a stored retry count of 2 (hard cap − 1) proceeds to
enrichment.  The guard compares the incremented count: `stored + 1 > 3` iff
`stored ≥ 3`. -/
theorem c3_monitor_hard_cap (e : LedgerEntry) (now : Nat) (enrichOk publishOk : Bool) :
    (3 ≤ e.retryCount →
      (processMessage (some e) now true enrichOk publishOk).1.effects =
        [MonitorEffect.deleteSource]) ∧
    (e.retryCount = 2 →
      MonitorEffect.enrichAttempt ∈
        (processMessage (some e) now true enrichOk publishOk).1.effects) := by
  constructor
  · intro h
    simp [processMessage, checkAndRecordMessage, Nat.lt_succ_iff, h]
  · intro h
    cases he : enrichOk <;> cases hp : publishOk <;>
      simp [processMessage, checkAndRecordMessage, h]

/-- C3 witness: the boundary entries, stored retry counts 3 and 2. -/
theorem c3_witness :
    (processMessage (some cappedEntry) 9000 true true true).1.effects =
      [MonitorEffect.deleteSource] ∧
    MonitorEffect.enrichAttempt ∈
      (processMessage (some nearCapEntry) 9000 true true true).1.effects :=
  ⟨(c3_monitor_hard_cap cappedEntry 9000 true true).1 (by decide),
   (c3_monitor_hard_cap nearCapEntry 9000 true true).2 (by decide)⟩

/-- C4: for a message that passes the hard-cap guard, the source delete happens
only after the enriched-event publish succeeded: a failed publish yields no
delete, and a trace containing the delete is exactly
enrich–publishSucceeded–delete. -/
theorem c4_delete_only_after_publish (entry : Option LedgerEntry) (now : Nat)
    (ddbOk enrichOk publishOk : Bool)
    (hpass : ((checkAndRecordMessage entry now ddbOk).1.isDuplicate &&
      decide (3 < (checkAndRecordMessage entry now ddbOk).1.retryCount)) = false) :
    (publishOk = false →
      MonitorEffect.deleteSource ∉
        (processMessage entry now ddbOk enrichOk publishOk).1.effects) ∧
    (MonitorEffect.deleteSource ∈
        (processMessage entry now ddbOk enrichOk publishOk).1.effects →
      publishOk = true ∧
      (processMessage entry now ddbOk enrichOk publishOk).1.effects =
        [MonitorEffect.enrichAttempt, MonitorEffect.publishSucceeded,
          MonitorEffect.deleteSource]) := by
  cases he : enrichOk <;> cases hp : publishOk <;>
    simp [processMessage, hpass]

/-- C4 witness: a first-seen message; the publish-failure run does not delete,
the publish-success run deletes last. -/
theorem c4_witness :
    MonitorEffect.deleteSource ∉ (processMessage none 9000 true true false).1.effects ∧
    (processMessage none 9000 true true true).1.effects =
      [MonitorEffect.enrichAttempt, MonitorEffect.publishSucceeded,
        MonitorEffect.deleteSource] :=
  ⟨(c4_delete_only_after_publish none 9000 true true false (by decide)).1 rfl,
   ((c4_delete_only_after_publish none 9000 true true true (by decide)).2 (by decide)).2⟩


/-- C5: at a retry count at or above `MAX_RETRY_ATTEMPTS` (5), the retry
handler issues no SQS request and fails with the max-retries error; below the
cap it issues exactly one send to the original queue carrying
`retryCount = retry_count + 1`. -/
theorem c5_retry_hard_cap (cfg : ExecConfig) (env : ExecEnv) (ctx : ActionContext) :
    (MAX_RETRY_ATTEMPTS ≤ ctx.message.enrichment.retryCount →
      handleTransientFailure cfg env ctx =
        ({ success := false, action := .REPLAY, messageId := ctx.message.messageId,
           error := some "Max retry attempts (5) exceeded" }, [])) ∧
    (ctx.message.enrichment.retryCount < MAX_RETRY_ATTEMPTS →
      (handleTransientFailure cfg env ctx).2 =
        [ExecutorEffect.sqsSend cfg.originalQueueUrl ctx.message.body
          (min (jsOr ctx.classification.recommendedAction.retryDelaySeconds
            (calculateBackoffDelay ctx.message.enrichment.retryCount)) 900)
          (ctx.message.enrichment.retryCount + 1) ctx.message.messageId
          (categoryName ctx.classification.category)]) := by
  constructor
  · intro h
    unfold handleTransientFailure
    rw [if_pos h]
    rfl
  · intro h
    unfold handleTransientFailure
    rw [if_neg (Nat.not_le.mpr h)]
    cases hs : env.sqsSendOk <;> simp [hs]

/-- C5 witness: retry counts 5 (capped, no send) and 1 (one send with
attribute 2). -/
theorem c5_witness :
    handleTransientFailure execCfg execEnvOk
        { message := mkTransientMessage 5, classification := transientClassification (some 60) } =
      ({ success := false, action := .REPLAY, messageId := "msg-123",
         error := some "Max retry attempts (5) exceeded" }, []) ∧
    (handleTransientFailure execCfg execEnvOk
        { message := mkTransientMessage 1,
          classification := transientClassification (some 60) }).2 =
      [ExecutorEffect.sqsSend execCfg.originalQueueUrl "payload" 60 2 "msg-123" "TRANSIENT"] :=
  ⟨(c5_retry_hard_cap execCfg execEnvOk
      { message := mkTransientMessage 5,
        classification := transientClassification (some 60) }).1 (by decide),
   (c5_retry_hard_cap execCfg execEnvOk
      { message := mkTransientMessage 1,
        classification := transientClassification (some 60) }).2 (by decide)⟩

/-- C6: the backoff both the classifier recommends and the retry handler
computes is `min(30 · 2 ^ retry_count, 900)`, and it saturates at 900 from
retry count 5 on. -/
theorem c6_backoff_saturation (r : Nat) :
    calculateBackoffDelay r = min (30 * 2 ^ r) 900 ∧
    (getRecommendedAction .TRANSIENT r).retryDelaySeconds = some (min (30 * 2 ^ r) 900) ∧
    (5 ≤ r → calculateBackoffDelay r = 900) := by
  refine ⟨rfl, rfl, fun h => ?_⟩
  have h2 : (900 : Nat) ≤ 30 * 2 ^ r :=
    le_trans (by norm_num : (900 : Nat) ≤ 30 * 2 ^ 5)
      (Nat.mul_le_mul_left 30 (Nat.pow_le_pow_right (by norm_num) h))
  simp [calculateBackoffDelay, MIN_BACKOFF_SECONDS, BACKOFF_MULTIPLIER, MAX_BACKOFF_SECONDS,
    Nat.min_eq_right h2]

/-- C6 witness: retry count 7 saturates. -/
theorem c6_witness :
    calculateBackoffDelay 7 = min (30 * 2 ^ 7) 900 ∧ calculateBackoffDelay 7 = 900 :=
  ⟨(c6_backoff_saturation 7).1, (c6_backoff_saturation 7).2.2 (by norm_num)⟩

/-- C9: the archive key is
`poison-pills/YYYY-MM-DD/<source_queue>/<message_id>.json`; when the S3 write
throws, the trace is the lone put request and carries no SNS publish; when the
write succeeds, the trace is exactly put-then-publish. -/
theorem c9_archive_then_alert (cfg : ExecConfig) (env : ExecEnv) (ctx : ActionContext) :
    generateS3Key env.today ctx.message.messageId ctx.message.sourceQueue =
      "poison-pills" ++ "/" ++ env.today ++ "/" ++ ctx.message.sourceQueue ++ "/" ++
        ctx.message.messageId ++ ".json" ∧
    (env.s3PutOk = false →
      (handlePoisonPill cfg env ctx).2 =
        [ExecutorEffect.s3Put cfg.poisonPillBucket
          (generateS3Key env.today ctx.message.messageId ctx.message.sourceQueue)] ∧
      hasSnsPublish (handlePoisonPill cfg env ctx).2 = false) ∧
    (env.s3PutOk = true →
      (handlePoisonPill cfg env ctx).2 =
        [ExecutorEffect.s3Put cfg.poisonPillBucket
          (generateS3Key env.today ctx.message.messageId ctx.message.sourceQueue),
         ExecutorEffect.snsPublish cfg.snsAlertTopicArn
           ("[QueueMint] Poison Pill Detected: " ++ ctx.message.sourceQueue)]) := by
  refine ⟨rfl, fun h => ?_, fun h => ?_⟩
  · simp [handlePoisonPill, h, hasSnsPublish]
  · cases hs : env.snsPublishOk <;> simp [handlePoisonPill, h, hs]

/-- C9 witness: the concrete poison-pill scenario, with the failing and the
succeeding S3 write. -/
theorem c9_witness :
    generateS3Key "2026-02-16" "msg-9" "orders-dlq" =
      "poison-pills/2026-02-16/orders-dlq/msg-9.json" ∧
    (handlePoisonPill execCfg execEnvS3Fail
        { message := poisonMessage, classification := poisonClassification }).2 =
      [ExecutorEffect.s3Put execCfg.poisonPillBucket
        (generateS3Key "2026-02-16" "msg-9" "orders-dlq")] ∧
    (handlePoisonPill execCfg execEnvOk
        { message := poisonMessage, classification := poisonClassification }).2 =
      [ExecutorEffect.s3Put execCfg.poisonPillBucket
        (generateS3Key "2026-02-16" "msg-9" "orders-dlq"),
       ExecutorEffect.snsPublish execCfg.snsAlertTopicArn
         ("[QueueMint] Poison Pill Detected: " ++ "orders-dlq")] :=
  ⟨by decide,
   ((c9_archive_then_alert execCfg execEnvS3Fail
      { message := poisonMessage, classification := poisonClassification }).2.1 rfl).1,
   (c9_archive_then_alert execCfg execEnvOk
      { message := poisonMessage, classification := poisonClassification }).2.2 rfl⟩

/-- C10: a present-but-zero `retryDelaySeconds` is falsy for the `||`
preference test, so the handler sends with the computed exponential backoff
`min(30 · 2 ^ retry_count, 900)` instead of the zero delay. -/
theorem c10_zero_delay_ignored (cfg : ExecConfig) (env : ExecEnv) (ctx : ActionContext)
    (h0 : ctx.classification.recommendedAction.retryDelaySeconds = some 0)
    (hrc : ctx.message.enrichment.retryCount < MAX_RETRY_ATTEMPTS) :
    (handleTransientFailure cfg env ctx).2 =
      [ExecutorEffect.sqsSend cfg.originalQueueUrl ctx.message.body
        (calculateBackoffDelay ctx.message.enrichment.retryCount)
        (ctx.message.enrichment.retryCount + 1) ctx.message.messageId
        (categoryName ctx.classification.category)] ∧
    calculateBackoffDelay ctx.message.enrichment.retryCount =
      min (30 * 2 ^ ctx.message.enrichment.retryCount) 900 := by
  refine ⟨?_, rfl⟩
  have hle : calculateBackoffDelay ctx.message.enrichment.retryCount ≤ 900 :=
    Nat.min_le_right _ _
  unfold handleTransientFailure
  rw [if_neg (Nat.not_le.mpr hrc), h0]
  cases hs : env.sqsSendOk <;> simp [hs, jsOr, Nat.min_eq_left hle]

/-- C10 witness: recommended delay 0 at retry count 2 sends with the computed
120-second backoff. -/
theorem c10_witness :
    (transientClassification (some 0)).recommendedAction.retryDelaySeconds = some 0 ∧
    (handleTransientFailure execCfg execEnvOk
        { message := mkTransientMessage 2,
          classification := transientClassification (some 0) }).2 =
      [ExecutorEffect.sqsSend execCfg.originalQueueUrl "payload" 120 3 "msg-123"
        "TRANSIENT"] :=
  ⟨rfl,
   (c10_zero_delay_ignored execCfg execEnvOk
      { message := mkTransientMessage 2, classification := transientClassification (some 0) }
      rfl (by decide)).1⟩

end QueueMint
